import Mathlib

/-!
Shallow embedding of the KPI/Risk/Forecast computation engine of
`src/app.py` (AI KPI Dashboard).

Modelling conventions:
* Float values are idealised as exact rationals (`ℚ`), except that the
  IEEE-754 special values produced by numpy/pandas arithmetic (infinities
  and NaN) are represented explicitly by the `FVal` type, so that
  division by a zero previous value is modelled faithfully: numpy scalar
  true division by zero emits only a `RuntimeWarning` and evaluates to
  `inf`/`-inf`/`nan`; it does not raise an exception.
* Exceptions raised by library calls (`IndexError` from positional
  indexing past the start of a pandas Series, `OverflowError`/`ValueError`
  from Python `round` on infinite/NaN floats) are modelled with `Except`.
* Python `round` is round-half-to-even, returning an integer.
-/

namespace KPI

/-- Extended value: a finite rational, `+inf`, `-inf`, or `nan`, mirroring
the IEEE-754 double values that flow through the pandas/numpy computation
in `src/app.py` lines 81-119.  `ℚ` has a single zero, which stands for
IEEE `+0.0`; this matches every reachable case in the program, where zero
denominators come directly from non-negative data values. -/
inductive FVal where
  | finite (q : ℚ)
  | inf
  | negInf
  | nan
deriving DecidableEq

/-- IEEE-style subtraction on extended values. -/
def FVal.sub : FVal → FVal → FVal
  | .nan, _ => .nan
  | _, .nan => .nan
  | .finite a, .finite b => .finite (a - b)
  | .finite _, .inf => .negInf
  | .finite _, .negInf => .inf
  | .inf, .finite _ => .inf
  | .negInf, .finite _ => .negInf
  | .inf, .inf => .nan
  | .inf, .negInf => .inf
  | .negInf, .inf => .negInf
  | .negInf, .negInf => .nan

/-- IEEE-style addition on extended values. -/
def FVal.add : FVal → FVal → FVal
  | .nan, _ => .nan
  | _, .nan => .nan
  | .finite a, .finite b => .finite (a + b)
  | .finite _, .inf => .inf
  | .finite _, .negInf => .negInf
  | .inf, .finite _ => .inf
  | .negInf, .finite _ => .negInf
  | .inf, .inf => .inf
  | .inf, .negInf => .nan
  | .negInf, .inf => .nan
  | .negInf, .negInf => .negInf

/-- IEEE-style multiplication on extended values (`inf * 0 = nan`). -/
def FVal.mul : FVal → FVal → FVal
  | .nan, _ => .nan
  | _, .nan => .nan
  | .finite a, .finite b => .finite (a * b)
  | .finite a, .inf => if 0 < a then .inf else if a < 0 then .negInf else .nan
  | .finite a, .negInf => if 0 < a then .negInf else if a < 0 then .inf else .nan
  | .inf, .finite b => if 0 < b then .inf else if b < 0 then .negInf else .nan
  | .negInf, .finite b => if 0 < b then .negInf else if b < 0 then .inf else .nan
  | .inf, .inf => .inf
  | .inf, .negInf => .negInf
  | .negInf, .inf => .negInf
  | .negInf, .negInf => .inf

/-- IEEE-style division on extended values.  Division of a finite value
by (rational, i.e. positive) zero yields `inf`/`-inf` by the sign of the
numerator, and `nan` for `0 / 0` — exactly what numpy scalar true
division does (with a `RuntimeWarning`, not an exception). -/
def FVal.div : FVal → FVal → FVal
  | .nan, _ => .nan
  | _, .nan => .nan
  | .finite a, .finite b =>
      if b = 0 then (if 0 < a then .inf else if a < 0 then .negInf else .nan)
      else .finite (a / b)
  | .finite _, .inf => .finite 0
  | .finite _, .negInf => .finite 0
  | .inf, .finite b => if b < 0 then .negInf else .inf
  | .negInf, .finite b => if b < 0 then .inf else .negInf
  | .inf, .inf => .nan
  | .inf, .negInf => .nan
  | .negInf, .inf => .nan
  | .negInf, .negInf => .nan

/-- IEEE-style absolute value on extended values. -/
def FVal.abs : FVal → FVal
  | .finite a => .finite |a|
  | .nan => .nan
  | .inf => .inf
  | .negInf => .inf

/-- IEEE-style `≤` comparison: any comparison involving `nan` is false. -/
def FVal.le : FVal → FVal → Bool
  | .nan, _ => false
  | _, .nan => false
  | .negInf, _ => true
  | _, .negInf => false
  | _, .inf => true
  | .inf, _ => false
  | .finite a, .finite b => a ≤ b

/-- IEEE-style `<` comparison: any comparison involving `nan` is false. -/
def FVal.lt : FVal → FVal → Bool
  | .nan, _ => false
  | _, .nan => false
  | .negInf, .negInf => false
  | .negInf, _ => true
  | _, .negInf => false
  | .inf, _ => false
  | _, .inf => true
  | .finite a, .finite b => a < b

/-- Errors surfaced by the evaluation of the dashboard script.
`validationError` models the missing-columns `st.stop()` path (app.py
lines 43-46); `indexError` is pandas' `IndexError` for an out-of-bounds
positional index; `overflowError` / `valueError` are what Python `round`
raises on an infinite / NaN float.  `insufficientDataError` is the error
the specification mandates for datasets with fewer than 2 rows; the
source never raises it. -/
inductive PyErr where
  | validationError
  | indexError
  | overflowError
  | valueError
  | insufficientDataError
deriving DecidableEq

deriving instance DecidableEq for Except

/-- pandas positional indexing `series.iloc[i]` with Python negative-index
semantics: a negative `i` counts from the end; an index out of range
raises `IndexError`. -/
def iloc (xs : List ℚ) (i : Int) : Except PyErr ℚ :=
  let j : Int := if i < 0 then i + xs.length else i
  if 0 ≤ j then
    match xs.get? j.toNat with
    | some v => .ok v
    | none => .error .indexError
  else .error .indexError

/-- Percentage change `((current - previous) / previous) * 100`
(app.py lines 83, 87, 91), in extended-value arithmetic. -/
def pct_change (current previous : FVal) : FVal :=
  ((current.sub previous).div previous).mul (.finite 100)

/-- The derived metric values of one evaluation (app.py lines 81-91). -/
structure MetricSnapshot where
  current_revenue : ℚ
  previous_revenue : ℚ
  mom_change : FVal
  current_orders : ℚ
  previous_orders : ℚ
  order_change : FVal
  current_aov : FVal
  previous_aov : FVal
  aov_change : FVal
deriving DecidableEq

/-- KPI calculations, app.py lines 81-91: current values from `iloc[-1]`,
previous values from `iloc[-2]`, percentage deltas for revenue, orders
and AOV.  `revs` and `ords` are the `Revenue` and `Orders` columns. -/
def kpi_calculations (revs ords : List ℚ) : Except PyErr MetricSnapshot := do
  let current_revenue ← iloc revs (-1)
  let previous_revenue ← iloc revs (-2)
  let mom_change := pct_change (.finite current_revenue) (.finite previous_revenue)
  let current_orders ← iloc ords (-1)
  let previous_orders ← iloc ords (-2)
  let order_change := pct_change (.finite current_orders) (.finite previous_orders)
  let current_aov := FVal.div (.finite current_revenue) (.finite current_orders)
  let previous_aov := FVal.div (.finite previous_revenue) (.finite previous_orders)
  let aov_change := pct_change current_aov previous_aov
  return { current_revenue, previous_revenue, mom_change,
           current_orders, previous_orders, order_change,
           current_aov, previous_aov, aov_change }

example : (kpi_calculations [1000, 900] [0, 50]).map MetricSnapshot.order_change
    = .ok FVal.inf := by
  norm_num [kpi_calculations, iloc, pct_change, FVal.sub, FVal.div, FVal.mul,
    Except.map, Except.bind, bind, pure, Except.pure]

example : (kpi_calculations [1000, 900] [0, 50]).map MetricSnapshot.aov_change
    = .ok FVal.nan := by rfl

example : (kpi_calculations [1000, 900] [0, 50]).map MetricSnapshot.mom_change
    = .ok (.finite (-10)) := by
  norm_num [kpi_calculations, iloc, pct_change, FVal.sub, FVal.div, FVal.mul,
    Except.map, Except.bind, bind, pure, Except.pure]

example : kpi_calculations [1000] [50] = .error .indexError := by rfl

/-- Risk engine, app.py lines 96-104: classify the revenue MoM change.
Returns the `(risk_level, risk_message)` pair; the level strings carry
the emoji prefixes used verbatim in the source.  The Python chained
comparison `-10 < mom_change < 0` is the conjunction of the two
comparisons, and comparisons involving NaN are false. -/
def risk_engine (mom_change : FVal) : String × String :=
  if mom_change.le (.finite (-10)) then
    ("🔴 High Risk", "Significant revenue decline detected. Immediate investigation required.")
  else if (FVal.lt (.finite (-10)) mom_change && mom_change.lt (.finite 0)) then
    ("🟡 Medium Risk", "Moderate revenue decline. Monitor closely.")
  else
    ("🟢 Healthy", "Revenue performance is stable or growing.")

/-- Diagnosis engine, app.py lines 109-114. -/
def diagnosis_engine (mom_change order_change : FVal) : String :=
  if (mom_change.lt (.finite 0) && order_change.lt (.finite 0)) then
    "Revenue and order volume declined together. Possible demand contraction."
  else if (mom_change.lt (.finite 0) && FVal.le (.finite 0) order_change) then
    "Revenue declined while order volume remained stable. Potential pricing issue."
  else
    "No major structural performance issue detected."

/-- Python `round` on a finite value: round half to even, to an integer. -/
def pyRound (q : ℚ) : ℤ :=
  if q - ⌊q⌋ < 1/2 then ⌊q⌋
  else if 1/2 < q - ⌊q⌋ then ⌊q⌋ + 1
  else if ⌊q⌋ % 2 = 0 then ⌊q⌋ else ⌊q⌋ + 1

/-- Python `round` applied to an extended float: `round(inf)` raises
`OverflowError`, `round(nan)` raises `ValueError`. -/
def roundF : FVal → Except PyErr ℤ
  | .finite q => .ok (pyRound q)
  | .inf => .error .overflowError
  | .negInf => .error .overflowError
  | .nan => .error .valueError

/-- Risk score, app.py line 119:
`min(round(abs(mom_change)*2 + abs(order_change)*1.5 + abs(aov_change)*1.2), 100)`. -/
def risk_score (mom_change order_change aov_change : FVal) : Except PyErr ℤ := do
  let r ← roundF ((((mom_change.abs).mul (.finite 2)).add
      ((order_change.abs).mul (.finite (3/2)))).add
      ((aov_change.abs).mul (.finite (6/5))))
  return min r 100

/-- The value `risk_score` takes on finite inputs (the only case the
bounded-score and monotonicity claims quantify over). -/
def risk_score_val (m o a : ℚ) : ℤ :=
  min (pyRound (|m| * 2 + |o| * (3/2) + |a| * (6/5))) 100

/-- Python `s.startswith(p)`: the character sequence of `p` is an
initial segment of the character sequence of `s`. -/
def starts_with (s p : String) : Bool :=
  p.toList.isPrefixOf s.toList

/-- AI commentary, app.py lines 134-140: dispatches on the emoji prefix
of the risk-level string; the two numeric arguments are accepted and
ignored, exactly as in the source. -/
def ai_diagnosis_layer (revenue_change order_change : FVal) (risk_level : String) : String :=
  if starts_with risk_level "🔴" then
    "Revenue contraction detected alongside order decline. Immediate intervention recommended."
  else if starts_with risk_level "🟡" then
    "Early signs of revenue deceleration observed. Close monitoring advised."
  else
    "Revenue trajectory remains stable with positive order dynamics. No material performance anomaly detected."

example : ai_diagnosis_layer .nan .nan "🔴 High Risk"
    = "Revenue contraction detected alongside order decline. Immediate intervention recommended." := by
  decide

/-- Sum `0 + 1 + ... + (n-1)` of the regression x-values
`np.arange(len(df))` (app.py line 124). -/
def sumX (n : ℕ) : ℚ := ∑ i in Finset.range n, (i : ℚ)

/-- Sum of the squared regression x-values. -/
def sumXX (n : ℕ) : ℚ := ∑ i in Finset.range n, (i : ℚ) ^ 2

/-- Sum of the y-values (the `Revenue` column). -/
def sumY (ys : List ℚ) : ℚ := ∑ i in Finset.range ys.length, ys.getD i 0

/-- Sum of the products `x_i * y_i`. -/
def sumXY (ys : List ℚ) : ℚ := ∑ i in Finset.range ys.length, (i : ℚ) * ys.getD i 0

/-- Denominator `n·Σx² - (Σx)²` of the least-squares normal equations. -/
def lstsq_den (n : ℕ) : ℚ := (n : ℚ) * sumXX n - sumX n ^ 2

/-- Slope of the degree-1 least-squares fit `np.polyfit(x, y, 1)`
(app.py line 126), in exact rational arithmetic via the normal
equations; for `n ≥ 2` distinct x-values the least-squares problem has
a unique solution and this is it. -/
def fit_slope (ys : List ℚ) : ℚ :=
  ((ys.length : ℚ) * sumXY ys - sumX ys.length * sumY ys) / lstsq_den ys.length

/-- Intercept of the degree-1 least-squares fit. -/
def fit_intercept (ys : List ℚ) : ℚ :=
  (sumY ys - fit_slope ys * sumX ys.length) / (ys.length : ℚ)

/-- The fitted trend line `np.poly1d(coefficients)` (app.py line 127),
evaluated at an arbitrary point. -/
def trend_line (ys : List ℚ) (t : ℚ) : ℚ :=
  fit_slope ys * t + fit_intercept ys

/-- Forecast, app.py lines 128-129: the trend line evaluated at
`next_month_index = len(df)` and rounded with `round(_, 0)` (Python
round-half-to-even, returning a whole-valued float). -/
def forecast_revenue (ys : List ℚ) : ℚ :=
  (pyRound (trend_line ys (ys.length : ℚ)) : ℚ)

/-- The only columns the engine requires (app.py line 43). -/
def required_columns : List String := ["Month", "Revenue", "Orders"]

/-- The full structured result of one evaluation of the dashboard script
on an uploaded table. -/
structure AppOutput where
  snapshot : MetricSnapshot
  risk_level : String
  risk_message : String
  diagnosis : String
  score : ℤ
  forecast : ℚ
  ai_commentary : String

/-- One full evaluation of the engine (app.py lines 41-142): the
missing-columns check (lines 43-46, modelled as `validationError`
because the script stops without computing anything), then the KPI
calculations, risk engine, diagnosis engine, risk score, forecast and
AI commentary, in source order.  `columns` is the uploaded table's
column list, `revs`/`ords` its `Revenue`/`Orders` columns. -/
def run_app (columns : List String) (revs ords : List ℚ) : Except PyErr AppOutput :=
  if required_columns.all (fun c => columns.contains c) then do
    let s ← kpi_calculations revs ords
    let rl := risk_engine s.mom_change
    let d := diagnosis_engine s.mom_change s.order_change
    let sc ← risk_score s.mom_change s.order_change s.aov_change
    let f := forecast_revenue revs
    let commentary := ai_diagnosis_layer s.mom_change s.order_change rl.1
    return { snapshot := s, risk_level := rl.1, risk_message := rl.2,
             diagnosis := d, score := sc, forecast := f, ai_commentary := commentary }
  else
    .error .validationError

/-- The sublist of the last two rows of a column. -/
def last_two (xs : List ℚ) : List ℚ := xs.drop (xs.length - 2)

/-- The revenue series lying exactly on the line `y = a·x + b` at
indices `0, …, n-1`. -/
def linear_series (a b : ℚ) (n : ℕ) : List ℚ :=
  (List.range n).map (fun (i : ℕ) => a * (i : ℚ) + b)

lemma pyRound_ge_floor (q : ℚ) : ⌊q⌋ ≤ pyRound q := by
  unfold pyRound; split_ifs <;> omega

lemma pyRound_le_floor_add_one (q : ℚ) : pyRound q ≤ ⌊q⌋ + 1 := by
  unfold pyRound; split_ifs <;> omega

lemma pyRound_mono {a b : ℚ} (h : a ≤ b) : pyRound a ≤ pyRound b := by
  have hfl : ⌊a⌋ ≤ ⌊b⌋ := Int.floor_le_floor h
  rcases eq_or_lt_of_le hfl with heq | hlt
  · unfold pyRound
    rw [← heq]
    split_ifs <;> first | omega | linarith
  · calc pyRound a ≤ ⌊a⌋ + 1 := pyRound_le_floor_add_one a
      _ ≤ ⌊b⌋ := by omega
      _ ≤ pyRound b := pyRound_ge_floor b

lemma pyRound_nonneg {q : ℚ} (h : 0 ≤ q) : 0 ≤ pyRound q :=
  le_trans (Int.floor_nonneg.mpr h) (pyRound_ge_floor q)

lemma pyRound_intCast (k : ℤ) : pyRound (k : ℚ) = k := by
  unfold pyRound
  rw [Int.floor_intCast]
  norm_num

lemma risk_engine_high {m : ℚ} (h : m ≤ -10) :
    risk_engine (.finite m) =
      ("🔴 High Risk", "Significant revenue decline detected. Immediate investigation required.") := by
  simp [risk_engine, FVal.le, h]

lemma risk_engine_medium {m : ℚ} (h1 : -10 < m) (h2 : m < 0) :
    risk_engine (.finite m) =
      ("🟡 Medium Risk", "Moderate revenue decline. Monitor closely.") := by
  simp [risk_engine, FVal.le, FVal.lt, not_le.mpr h1, h1, h2]

lemma risk_engine_healthy {m : ℚ} (h : 0 ≤ m) :
    risk_engine (.finite m) =
      ("🟢 Healthy", "Revenue performance is stable or growing.") := by
  simp [risk_engine, FVal.le, FVal.lt, not_le.mpr (by linarith : (-10 : ℚ) < m), not_lt.mpr h]

lemma diagnosis_engine_both {m o : ℚ} (hm : m < 0) (ho : o < 0) :
    diagnosis_engine (.finite m) (.finite o) =
      "Revenue and order volume declined together. Possible demand contraction." := by
  simp [diagnosis_engine, FVal.lt, hm, ho]

lemma diagnosis_engine_pricing {m o : ℚ} (hm : m < 0) (ho : 0 ≤ o) :
    diagnosis_engine (.finite m) (.finite o) =
      "Revenue declined while order volume remained stable. Potential pricing issue." := by
  simp [diagnosis_engine, FVal.lt, FVal.le, hm, not_lt.mpr ho, ho]

lemma diagnosis_engine_none {m o : ℚ} (hm : 0 ≤ m) :
    diagnosis_engine (.finite m) (.finite o) =
      "No major structural performance issue detected." := by
  simp [diagnosis_engine, FVal.lt, FVal.le, not_lt.mpr hm]

/-- C3: for every real `revenueDeltaPct`, the risk classifier returns
High Risk (with its exact message) when the delta is `≤ -10`, Medium
Risk when it is strictly between `-10` and `0`, and Healthy when it is
`≥ 0`; in particular `-10` is High and `0` is Healthy, and the result
depends on nothing but the revenue delta (the classifier is a function
of it alone). -/
theorem risk_classifier_thresholds (q : ℚ) :
    (q ≤ -10 → risk_engine (.finite q) =
      ("🔴 High Risk", "Significant revenue decline detected. Immediate investigation required.")) ∧
    (-10 < q → q < 0 → risk_engine (.finite q) =
      ("🟡 Medium Risk", "Moderate revenue decline. Monitor closely.")) ∧
    (0 ≤ q → risk_engine (.finite q) =
      ("🟢 Healthy", "Revenue performance is stable or growing.")) :=
  ⟨fun h => risk_engine_high h,
   fun h1 h2 => risk_engine_medium h1 h2,
   fun h => risk_engine_healthy h⟩

/-- Witness for C3 at the boundary values `-10` (High) and `0`
(Healthy), and at an interior Medium value `-5`. -/
theorem risk_classifier_thresholds_witness :
    risk_engine (.finite (-10)) =
      ("🔴 High Risk", "Significant revenue decline detected. Immediate investigation required.") ∧
    risk_engine (.finite (-5)) =
      ("🟡 Medium Risk", "Moderate revenue decline. Monitor closely.") ∧
    risk_engine (.finite 0) =
      ("🟢 Healthy", "Revenue performance is stable or growing.") :=
  ⟨(risk_classifier_thresholds (-10)).1 (by norm_num),
   (risk_classifier_thresholds (-5)).2.1 (by norm_num) (by norm_num),
   (risk_classifier_thresholds 0).2.2 (by norm_num)⟩

/-- C4: the diagnosis engine returns the "declined together" statement
when both deltas are negative (regardless of any other value, in
particular the AOV delta, which it does not even receive), the
"pricing issue" statement when revenue declined but orders did not,
and the "no major issue" statement otherwise. -/
theorem diagnosis_precedence (m o : ℚ) :
    (m < 0 → o < 0 → diagnosis_engine (.finite m) (.finite o) =
      "Revenue and order volume declined together. Possible demand contraction.") ∧
    (m < 0 → 0 ≤ o → diagnosis_engine (.finite m) (.finite o) =
      "Revenue declined while order volume remained stable. Potential pricing issue.") ∧
    (0 ≤ m → diagnosis_engine (.finite m) (.finite o) =
      "No major structural performance issue detected.") :=
  ⟨fun hm ho => diagnosis_engine_both hm ho,
   fun hm ho => diagnosis_engine_pricing hm ho,
   fun hm => diagnosis_engine_none hm⟩

/-- Witness for C4 at `(-3, -7)`, `(-3, 7)` and `(3, -7)`. -/
theorem diagnosis_precedence_witness :
    diagnosis_engine (.finite (-3)) (.finite (-7)) =
      "Revenue and order volume declined together. Possible demand contraction." ∧
    diagnosis_engine (.finite (-3)) (.finite 7) =
      "Revenue declined while order volume remained stable. Potential pricing issue." ∧
    diagnosis_engine (.finite 3) (.finite (-7)) =
      "No major structural performance issue detected." :=
  ⟨(diagnosis_precedence (-3) (-7)).1 (by norm_num) (by norm_num),
   (diagnosis_precedence (-3) 7).2.1 (by norm_num) (by norm_num),
   (diagnosis_precedence 3 (-7)).2.2 (by norm_num)⟩

/-- C5: for finite deltas the risk score is
`min(round(|m|·2 + |o|·1.5 + |a|·1.2), 100)` (Python `round`, i.e.
round half to even), an integer that is always in `[0, 100]`, and any
combination whose raw weighted sum rounds above 100 yields exactly
100. -/
theorem risk_score_formula_bounded (m o a : ℚ) :
    risk_score (.finite m) (.finite o) (.finite a) = .ok (risk_score_val m o a) ∧
    risk_score_val m o a = min (pyRound (|m| * 2 + |o| * (3/2) + |a| * (6/5))) 100 ∧
    0 ≤ risk_score_val m o a ∧ risk_score_val m o a ≤ 100 ∧
    (100 < pyRound (|m| * 2 + |o| * (3/2) + |a| * (6/5)) → risk_score_val m o a = 100) := by
  refine ⟨rfl, rfl, ?_, min_le_right _ _, fun h => min_eq_right (le_of_lt h)⟩
  exact le_min (pyRound_nonneg (by positivity)) (by norm_num)

/-- Witness for C5 at `(100, 0, 0)`: the raw weighted sum rounds to
`200 > 100` and the score is clamped to exactly `100`. -/
theorem risk_score_formula_bounded_witness :
    100 < pyRound (|(100 : ℚ)| * 2 + |(0 : ℚ)| * (3/2) + |(0 : ℚ)| * (6/5)) ∧
    risk_score_val 100 0 0 = 100 := by
  have h200 : pyRound (|(100 : ℚ)| * 2 + |(0 : ℚ)| * (3/2) + |(0 : ℚ)| * (6/5)) = 200 := by
    have harg : |(100 : ℚ)| * 2 + |(0 : ℚ)| * (3/2) + |(0 : ℚ)| * (6/5) = ((200 : ℤ) : ℚ) := by
      norm_num
    rw [harg, pyRound_intCast]
  exact ⟨by rw [h200]; norm_num,
    (risk_score_formula_bounded 100 0 0).2.2.2.2 (by rw [h200]; norm_num)⟩

lemma risk_score_val_mono {m m' o o' a a' : ℚ}
    (hm : |m| ≤ |m'|) (ho : |o| ≤ |o'|) (ha : |a| ≤ |a'|) :
    risk_score_val m o a ≤ risk_score_val m' o' a' :=
  min_le_min (pyRound_mono (by linarith)) le_rfl

/-- C6: the risk score is monotonically non-decreasing in each of the
three absolute deltas independently: raising the absolute value of one
component while the others stay fixed never lowers the score. -/
theorem risk_score_monotone (m m' o o' a a' : ℚ) :
    (|m| ≤ |m'| → risk_score_val m o a ≤ risk_score_val m' o a) ∧
    (|o| ≤ |o'| → risk_score_val m o a ≤ risk_score_val m o' a) ∧
    (|a| ≤ |a'| → risk_score_val m o a ≤ risk_score_val m o a') :=
  ⟨fun h => risk_score_val_mono h le_rfl le_rfl,
   fun h => risk_score_val_mono le_rfl h le_rfl,
   fun h => risk_score_val_mono le_rfl le_rfl h⟩

/-- Witness for C6, raising each component in turn (also across a sign
flip, since only the absolute value matters). -/
theorem risk_score_monotone_witness :
    risk_score_val 1 2 3 ≤ risk_score_val (-5) 2 3 ∧
    risk_score_val 1 2 3 ≤ risk_score_val 1 4 3 ∧
    risk_score_val 1 2 3 ≤ risk_score_val 1 2 (-7) :=
  ⟨(risk_score_monotone 1 (-5) 2 2 3 3).1 (by norm_num),
   (risk_score_monotone 1 1 2 4 3 3).2.1 (by norm_num),
   (risk_score_monotone 1 1 2 2 3 (-7)).2.2 (by norm_num)⟩

/-- C9: the commentary is a function of the risk-level string alone —
the two delta arguments the source function accepts never change the
result — and each of the three level strings produced by the risk
engine maps to exactly the canned narrative the claim lists. -/
theorem commentary_depends_only_on_level :
    (∀ rc oc rc' oc' : FVal, ∀ lvl : String,
        ai_diagnosis_layer rc oc lvl = ai_diagnosis_layer rc' oc' lvl) ∧
    (∀ rc oc : FVal,
        ai_diagnosis_layer rc oc "🔴 High Risk" =
          "Revenue contraction detected alongside order decline. Immediate intervention recommended." ∧
        ai_diagnosis_layer rc oc "🟡 Medium Risk" =
          "Early signs of revenue deceleration observed. Close monitoring advised." ∧
        ai_diagnosis_layer rc oc "🟢 Healthy" =
          "Revenue trajectory remains stable with positive order dynamics. No material performance anomaly detected.") :=
  ⟨fun _ _ _ _ _ => rfl, fun _ _ => ⟨rfl, rfl, rfl⟩⟩

/-- C10: for all finite deltas, the risk classifier answers Healthy
exactly when the diagnosis engine reports no structural issue — both
conditions reduce to `revenueDeltaPct ≥ 0`. -/
theorem healthy_iff_no_structural_issue (m o : ℚ) :
    (risk_engine (.finite m)).1 = "🟢 Healthy" ↔
      diagnosis_engine (.finite m) (.finite o) =
        "No major structural performance issue detected." := by
  rcases lt_or_le m 0 with hm | hm
  · apply iff_of_false
    · rcases le_or_lt m (-10) with h10 | h10
      · rw [risk_engine_high h10]; decide
      · rw [risk_engine_medium h10 hm]; decide
    · rcases lt_or_le o 0 with ho | ho
      · rw [diagnosis_engine_both hm ho]; decide
      · rw [diagnosis_engine_pricing hm ho]; decide
  · apply iff_of_true
    · rw [risk_engine_healthy hm]
    · exact diagnosis_engine_none hm

/-- C1 (evaluation of the code at the failing input): on the dataset
whose last two rows are `(Jan, 1000, 0)` and `(Feb, 900, 50)` — so the
previous `Orders` value is exactly 0 — the metric computation does not
raise any division error: `order_change` silently becomes `+inf` and
`aov_change` becomes `nan` (numpy only emits a `RuntimeWarning`).  The
full evaluation then aborts much later, at the risk-score line, where
Python `round(nan)` raises `ValueError` — not a `DivisionByZeroError`
and not a documented sentinel policy. -/
theorem prev_zero_yields_infinity_silently :
    (kpi_calculations [1000, 900] [0, 50]).map MetricSnapshot.order_change = .ok FVal.inf ∧
    (kpi_calculations [1000, 900] [0, 50]).map MetricSnapshot.aov_change = .ok FVal.nan ∧
    run_app ["Month", "Revenue", "Orders"] [1000, 900] [0, 50] = .error .valueError := by
  refine ⟨?_, rfl, ?_⟩
  · norm_num [kpi_calculations, iloc, pct_change, FVal.sub, FVal.div, FVal.mul,
      Except.map, Except.bind, bind, pure, Except.pure]
  · have hcols : required_columns.all
        (fun c => (["Month", "Revenue", "Orders"] : List String).contains c) = true := by decide
    norm_num [run_app, hcols, kpi_calculations, iloc, pct_change, FVal.sub, FVal.div,
      FVal.mul, FVal.add, FVal.abs, risk_score, roundF, risk_engine, diagnosis_engine,
      FVal.le, FVal.lt, Except.map, Except.bind, bind, pure, Except.pure]
    decide

/-- C2 (evaluation of the code at the failing input): a table that has
all three required columns but a single row `(Jan, 1000, 50)` passes the
column check — the script has no row-count validation at all — and the
evaluation then dies with pandas' `IndexError` when `iloc[-2]` is
evaluated (after `current_revenue` was already read); it does not fail
with the `InsufficientDataError` the specification mandates. -/
theorem one_row_fails_with_index_error :
    run_app ["Month", "Revenue", "Orders"] [1000] [50] = .error .indexError ∧
    run_app ["Month", "Revenue", "Orders"] [1000] [50] ≠ .error .insufficientDataError := by
  have h : run_app ["Month", "Revenue", "Orders"] [1000] [50] = .error .indexError := by
    have hcols : required_columns.all
        (fun c => (["Month", "Revenue", "Orders"] : List String).contains c) = true := by decide
    norm_num [run_app, hcols, kpi_calculations, iloc,
      Except.map, Except.bind, bind, pure, Except.pure]
    decide
  refine ⟨h, ?_⟩
  rw [h]
  intro hc
  exact PyErr.noConfusion (Except.error.inj hc)

lemma length_last_two {xs : List ℚ} (h : 2 ≤ xs.length) : (last_two xs).length = 2 := by
  simp only [last_two, List.length_drop]
  omega

lemma iloc_neg {xs : List ℚ} {k : ℕ} (h1 : 1 ≤ k) (h2 : k ≤ xs.length) :
    iloc xs (-(k : ℤ)) = .ok (xs.getD (xs.length - k) 0) := by
  have hlt : xs.length - k < xs.length := by omega
  simp only [iloc]
  rw [if_pos (by omega : -(k : ℤ) < 0)]
  rw [if_pos (by omega : (0 : ℤ) ≤ -(k : ℤ) + xs.length)]
  have hto : (-(k : ℤ) + xs.length).toNat = xs.length - k := by omega
  rw [hto, List.getD_eq_get?, List.get?_eq_get hlt]
  rfl

lemma iloc_last_two {xs : List ℚ} (h : 2 ≤ xs.length) {k : ℕ} (h1 : 1 ≤ k) (h2 : k ≤ 2) :
    iloc (last_two xs) (-(k : ℤ)) = iloc xs (-(k : ℤ)) := by
  have hl2 : (last_two xs).length = 2 := length_last_two h
  rw [@iloc_neg (last_two xs) k h1 (by rw [hl2]; omega),
    @iloc_neg xs k h1 (by omega), hl2]
  have hidx : xs.length - 2 + (2 - k) = xs.length - k := by omega
  simp [last_two, List.getD_eq_get?, List.get?_drop, hidx]

lemma iloc_last_two_one {xs : List ℚ} (h : 2 ≤ xs.length) :
    iloc (last_two xs) (-1) = iloc xs (-1) := by
  have hc : (-1 : ℤ) = -((1 : ℕ) : ℤ) := by norm_num
  rw [hc]
  exact iloc_last_two h (by norm_num) (by norm_num)

lemma iloc_last_two_two {xs : List ℚ} (h : 2 ≤ xs.length) :
    iloc (last_two xs) (-2) = iloc xs (-2) := by
  have hc : (-2 : ℤ) = -((2 : ℕ) : ℤ) := by norm_num
  rw [hc]
  exact iloc_last_two h (by norm_num) (by norm_num)

lemma pct_change_finite {c p : ℚ} (hp : p ≠ 0) :
    pct_change (.finite c) (.finite p) = .finite ((c - p) / p * 100) := by
  simp [pct_change, FVal.sub, FVal.div, FVal.mul, hp]

/-- C8: for every dataset with at least two rows in each column, the
metric snapshot is computed from the last two rows only (truncating
both columns to their last two entries changes nothing), the current
values come from the last row and the previous values from the
second-to-last row, and each percentage delta whose previous value is
nonzero equals `(current - previous) / previous * 100`. -/
theorem metrics_use_last_two_rows (revs ords : List ℚ)
    (h1 : 2 ≤ revs.length) (h2 : 2 ≤ ords.length) :
    kpi_calculations revs ords = kpi_calculations (last_two revs) (last_two ords) ∧
    ∀ s, kpi_calculations revs ords = .ok s →
      s.current_revenue = revs.getD (revs.length - 1) 0 ∧
      s.previous_revenue = revs.getD (revs.length - 2) 0 ∧
      s.current_orders = ords.getD (ords.length - 1) 0 ∧
      s.previous_orders = ords.getD (ords.length - 2) 0 ∧
      (s.previous_revenue ≠ 0 →
        s.mom_change =
          .finite ((s.current_revenue - s.previous_revenue) / s.previous_revenue * 100)) ∧
      (s.previous_orders ≠ 0 →
        s.order_change =
          .finite ((s.current_orders - s.previous_orders) / s.previous_orders * 100)) ∧
      (∀ ca pa : ℚ, s.current_aov = .finite ca → s.previous_aov = .finite pa → pa ≠ 0 →
        s.aov_change = .finite ((ca - pa) / pa * 100)) := by
  have hr1 : iloc revs (-1) = .ok (revs.getD (revs.length - 1) 0) := by
    have hc : (-1 : ℤ) = -((1 : ℕ) : ℤ) := by norm_num
    rw [hc]; exact iloc_neg (by norm_num) (by omega)
  have hr2 : iloc revs (-2) = .ok (revs.getD (revs.length - 2) 0) := by
    have hc : (-2 : ℤ) = -((2 : ℕ) : ℤ) := by norm_num
    rw [hc]; exact iloc_neg (by norm_num) (by omega)
  have ho1 : iloc ords (-1) = .ok (ords.getD (ords.length - 1) 0) := by
    have hc : (-1 : ℤ) = -((1 : ℕ) : ℤ) := by norm_num
    rw [hc]; exact iloc_neg (by norm_num) (by omega)
  have ho2 : iloc ords (-2) = .ok (ords.getD (ords.length - 2) 0) := by
    have hc : (-2 : ℤ) = -((2 : ℕ) : ℤ) := by norm_num
    rw [hc]; exact iloc_neg (by norm_num) (by omega)
  constructor
  · unfold kpi_calculations
    rw [iloc_last_two_one h1, iloc_last_two_two h1, iloc_last_two_one h2,
      iloc_last_two_two h2]
  · intro s hs
    unfold kpi_calculations at hs
    rw [hr1, hr2, ho1, ho2] at hs
    simp only [Except.bind, bind, pure, Except.pure, Except.ok.injEq] at hs
    subst hs
    refine ⟨rfl, rfl, rfl, rfl, fun hp => pct_change_finite hp, fun hp => pct_change_finite hp,
      fun ca pa hca hpa hp => ?_⟩
    dsimp only at hca hpa ⊢
    rw [hca, hpa]
    exact pct_change_finite hp

/-- Witness for C8 on a concrete 3-row dataset. -/
theorem metrics_use_last_two_rows_witness :
    kpi_calculations [5, 10, 20] [1, 2, 4]
      = kpi_calculations (last_two [5, 10, 20]) (last_two [1, 2, 4]) :=
  (metrics_use_last_two_rows [5, 10, 20] [1, 2, 4] (by norm_num) (by norm_num)).1

lemma sumX_eq (n : ℕ) : sumX n = (n : ℚ) * ((n : ℚ) - 1) / 2 := by
  induction n with
  | zero => simp [sumX]
  | succ k ih =>
    rw [sumX, Finset.sum_range_succ, ← sumX, ih]
    push_cast
    ring

lemma sumXX_eq (n : ℕ) : sumXX n = (n : ℚ) * ((n : ℚ) - 1) * (2 * (n : ℚ) - 1) / 6 := by
  induction n with
  | zero => simp [sumXX]
  | succ k ih =>
    rw [sumXX, Finset.sum_range_succ, ← sumXX, ih]
    push_cast
    ring

lemma lstsq_den_eq (n : ℕ) : lstsq_den n = (n : ℚ) ^ 2 * ((n : ℚ) ^ 2 - 1) / 12 := by
  unfold lstsq_den
  rw [sumX_eq, sumXX_eq]
  ring

lemma lstsq_den_pos {n : ℕ} (h : 2 ≤ n) : 0 < lstsq_den n := by
  rw [lstsq_den_eq]
  have hn : (2 : ℚ) ≤ (n : ℚ) := by exact_mod_cast h
  have h4 : (4 : ℚ) ≤ (n : ℚ) ^ 2 := by nlinarith
  have h1 : (0 : ℚ) < (n : ℚ) ^ 2 * ((n : ℚ) ^ 2 - 1) := by nlinarith
  exact div_pos h1 (by norm_num)

lemma linear_series_length (a b : ℚ) (n : ℕ) : (linear_series a b n).length = n := by
  rw [linear_series, List.length_map, List.length_range]

lemma linear_series_getD {a b : ℚ} {n i : ℕ} (h : i < n) :
    (linear_series a b n).getD i 0 = a * i + b := by
  rw [linear_series, List.getD_eq_getElem?_getD, List.getElem?_map, List.getElem?_range h]
  rfl

lemma sumY_linear (a b : ℚ) (n : ℕ) :
    sumY (linear_series a b n) = a * sumX n + n * b := by
  unfold sumY sumX
  rw [linear_series_length,
    Finset.sum_congr rfl (fun i hi => linear_series_getD (Finset.mem_range.mp hi)),
    Finset.sum_add_distrib, ← Finset.mul_sum, Finset.sum_const, Finset.card_range,
    nsmul_eq_mul]

lemma sumXY_linear (a b : ℚ) (n : ℕ) :
    sumXY (linear_series a b n) = a * sumXX n + b * sumX n := by
  unfold sumXY sumXX sumX
  rw [linear_series_length,
    Finset.sum_congr rfl (fun i hi => by rw [linear_series_getD (Finset.mem_range.mp hi)]),
    Finset.sum_congr rfl
      (fun i _ => by ring_nf : ∀ i ∈ Finset.range n,
        (i : ℚ) * (a * i + b) = a * (i : ℚ) ^ 2 + b * (i : ℚ)),
    Finset.sum_add_distrib, ← Finset.mul_sum, ← Finset.mul_sum]

lemma fit_slope_linear (a b : ℚ) {n : ℕ} (h : 2 ≤ n) :
    fit_slope (linear_series a b n) = a := by
  have hD := lstsq_den_pos h
  unfold fit_slope
  rw [linear_series_length, sumXY_linear, sumY_linear]
  have hnum : (n : ℚ) * (a * sumXX n + b * sumX n) - sumX n * (a * sumX n + n * b)
      = a * lstsq_den n := by
    unfold lstsq_den
    ring
  rw [hnum, mul_div_assoc, div_self (ne_of_gt hD), mul_one]

lemma fit_intercept_linear (a b : ℚ) {n : ℕ} (h : 2 ≤ n) :
    fit_intercept (linear_series a b n) = b := by
  have hn0 : (n : ℚ) ≠ 0 := by
    have : (2 : ℚ) ≤ (n : ℚ) := by exact_mod_cast h
    linarith
  unfold fit_intercept
  rw [linear_series_length, sumY_linear, fit_slope_linear a b h]
  field_simp

/-- C7 (amended): the forecaster fits a first-degree least-squares line
over `(index, revenue)` pairs with index `0..n-1` and evaluates it at
index `n`; on a revenue series lying exactly on `y = a·x + b` the
fitted slope and intercept are exactly `a` and `b`, the trend value at
`n` is exactly `a·n + b`, and the projected revenue is that value
rounded half-to-even to an integer — hence exactly `a·n + b` whenever
that extrapolation is a whole number (as in the spec's examples
`100,200,300,400 → 500` and a constant series). -/
theorem forecast_fits_line_rounded (a b : ℚ) (n : ℕ) (hn : 2 ≤ n) :
    fit_slope (linear_series a b n) = a ∧
    fit_intercept (linear_series a b n) = b ∧
    trend_line (linear_series a b n) (n : ℚ) = a * n + b ∧
    forecast_revenue (linear_series a b n) = (pyRound (a * n + b) : ℚ) ∧
    ∀ k : ℤ, a * n + b = (k : ℚ) → forecast_revenue (linear_series a b n) = a * n + b := by
  have hs := fit_slope_linear a b hn
  have hi := fit_intercept_linear a b hn
  have ht : trend_line (linear_series a b n) (n : ℚ) = a * n + b := by
    rw [trend_line, hs, hi]
  have hf : forecast_revenue (linear_series a b n) = (pyRound (a * n + b) : ℚ) := by
    rw [forecast_revenue, linear_series_length, ht]
  refine ⟨hs, hi, ht, hf, fun k hk => ?_⟩
  rw [hf, hk, pyRound_intCast]

/-- Witness for C7 (amended) on the spec's example: the series
`100,200,300,400` (the line `y = 100·x + 100` at indices 0..3)
forecasts exactly `500`. -/
theorem forecast_fits_line_rounded_witness :
    forecast_revenue (linear_series 100 100 4) = 100 * ((4 : ℕ) : ℚ) + 100 :=
  (forecast_fits_line_rounded 100 100 4 (by norm_num)).2.2.2.2 500 (by norm_num)

/-- Counterexample to C7 as stated: the two-point series `0, 1/4` lies
exactly on the line `y = (1/4)·x`, whose exact extrapolation to index 2
is `1/2`, but the code rounds the trend value (`round(_, 0)`,
half-to-even), so the projected revenue is `0`, not the exact linear
extrapolation. -/
theorem forecast_rounding_counterexample :
    linear_series (1/4) 0 2 = [0, 1/4] ∧
    forecast_revenue [0, 1/4] = 0 ∧
    (1/4 : ℚ) * ((2 : ℕ) : ℚ) + 0 = 1/2 ∧
    (0 : ℚ) ≠ 1/2 := by
  refine ⟨?_, ?_, by norm_num, by norm_num⟩
  · norm_num [linear_series, List.range_succ]
  · have hfloor : ⌊(1 / 2 : ℚ)⌋ = 0 := by
      rw [Int.floor_eq_iff]
      norm_num
    norm_num [forecast_revenue, trend_line, fit_slope, fit_intercept, sumY, sumXY,
      sumX, sumXX, lstsq_den, Finset.sum_range_succ, Finset.sum_range_zero, pyRound, hfloor]

end KPI
